import Mathlib

/-!
Verification of the agentflow-infrastructure runtime core.

Shallow embedding of the Rust sources under src/core/runtime/src:
agent.rs (AgentRequest, AgentResponse, AgentExecution and its lifecycle
operations), wasm.rs (WasmSandbox.execute_agent and its mocked helpers),
and lib.rs (AgentflowRuntime.handle_agent_request, the execution registry,
ExecutionStatus, ExecutionMetrics).

Machine integers are modelled as Nat; u64 wrap-around is made explicit as
arithmetic modulo 2 ^ 64 where a claim depends on it (duration_ms).
External library calls (wasmtime compilation and instantiation, the guest
call, serde text encoding, the clock, uuid generation) are modelled as
explicit environment parameters; functions whose bodies are fully present
in the source (load_agent_wasm, allocate_string, read_string,
get_memory_usage) are embedded with their literal bodies.

serde_json values are modelled by the inductive type Json below, and the
derived serde serializers for the message types are modelled as functions
between the message structures and Json trees.
-/

namespace Agentflow

/-- Model of serde_json::Value: the wire-level structured value. -/
inductive Json where
  | null : Json
  | bool (b : Bool) : Json
  | num (n : Int) : Json
  | str (s : String) : Json
  | arr (xs : List Json) : Json
  | obj (fields : List (String × Json)) : Json

/-- lib.rs: pub enum ExecutionStatus. -/
inductive ExecutionStatus where
  | Pending
  | Running
  | Completed
  | Failed
  | Cancelled
deriving DecidableEq

/-- lib.rs: pub struct ExecutionMetrics. Fields are u64, u64, u32, u64. -/
structure ExecutionMetrics where
  memory_usage : Nat
  cpu_time : Nat
  llm_calls : Nat
  execution_time_ms : Nat

/-- wasm.rs: pub struct AgentOutput. -/
structure AgentOutput where
  result : String
  llm_calls : Option Nat
  artifacts : Option (List String)

/-- wasm.rs: pub struct AgentResult. -/
structure AgentResult where
  success : Bool
  output : Option AgentOutput
  error : Option String
  metrics : ExecutionMetrics

/-- agent.rs: pub struct AgentConfig. The environment map is modelled as an
association list in its iteration order. -/
structure AgentConfig where
  llm_provider : String
  llm_model : String
  timeout_seconds : Option Nat
  max_retries : Option Nat
  environment : Option (List (String × String))

/-- agent.rs: pub struct AgentRequest. The input field is an arbitrary
serde_json::Value. -/
structure AgentRequest where
  agent_id : String
  workflow_id : String
  image : String
  input : Json
  config : AgentConfig

/-- agent.rs: pub struct AgentResponse. -/
structure AgentResponse where
  execution_id : String
  agent_id : String
  status : ExecutionStatus
  result : Option AgentResult
  error : Option String
  started_at : Nat
  completed_at : Option Nat

/-- agent.rs: pub struct AgentExecution. -/
structure AgentExecution where
  id : String
  request : AgentRequest
  status : ExecutionStatus
  result : Option AgentResult
  error : Option String
  started_at : Nat
  completed_at : Option Nat

/-- agent.rs: AgentExecution::new. The uuid and the clock reading are passed
explicitly as the id and now arguments. -/
def AgentExecution.new (request : AgentRequest) (id : String) (now : Nat) :
    AgentExecution :=
  { id := id
    request := request
    status := ExecutionStatus.Pending
    result := none
    error := none
    started_at := now
    completed_at := none }

/-- agent.rs: AgentExecution::start. Sets status to Running and re-reads the
clock into started_at. -/
def AgentExecution.start (e : AgentExecution) (now : Nat) : AgentExecution :=
  { e with status := ExecutionStatus.Running, started_at := now }

/-- agent.rs: AgentExecution::complete_success. -/
def AgentExecution.complete_success (e : AgentExecution) (result : AgentResult)
    (now : Nat) : AgentExecution :=
  { e with
    status := ExecutionStatus.Completed
    result := some result
    completed_at := some now }

/-- agent.rs: AgentExecution::complete_error. -/
def AgentExecution.complete_error (e : AgentExecution) (error : String)
    (now : Nat) : AgentExecution :=
  { e with
    status := ExecutionStatus.Failed
    error := some error
    completed_at := some now }

/-- agent.rs: AgentExecution::cancel takes a shared reference and only emits a
log line; the record is left untouched, so as a state transformer it is the
identity. -/
def AgentExecution.cancel (e : AgentExecution) : AgentExecution := e

/-- agent.rs: AgentExecution::is_running. -/
def AgentExecution.is_running (e : AgentExecution) : Bool :=
  e.status = ExecutionStatus.Running

/-- agent.rs: AgentExecution::is_completed. -/
def AgentExecution.is_completed (e : AgentExecution) : Bool :=
  e.status = ExecutionStatus.Completed || e.status = ExecutionStatus.Failed ||
    e.status = ExecutionStatus.Cancelled

/-- Modulus of the Rust u64 type. -/
def U64MOD : Nat := 2 ^ 64

/-- Rust u64 subtraction with release-mode wrap-around semantics. -/
def wrapSub (a b : Nat) : Nat := (((a : Int) - (b : Int)) % (U64MOD : Int)).toNat

/-- Rust u64 multiplication by 1000 with release-mode wrap-around semantics. -/
def wrapMul1000 (a : Nat) : Nat := (a * 1000) % U64MOD

/-- agent.rs: AgentExecution::duration_ms. The current clock reading is passed
explicitly as the now argument. Both branches return Some; the u64 arithmetic
(completed - started_at) * 1000 resp. (now - started_at) * 1000 is embedded
with explicit wrap-around. -/
def AgentExecution.duration_ms (e : AgentExecution) (now : Nat) : Option Nat :=
  match e.completed_at with
  | some completed => some (wrapMul1000 (wrapSub completed e.started_at))
  | none => some (wrapMul1000 (wrapSub now e.started_at))

/-- The end point used by duration_ms: completed_at if set, the current clock
reading otherwise. -/
def endTime (e : AgentExecution) (now : Nat) : Nat :=
  e.completed_at.getD now

/-- anyhow .context(c) followed by Display: the error message shown to the
caller is the outermost context string. -/
def withContext (x : Except String α) (c : String) : Except String α :=
  match x with
  | Except.ok v => Except.ok v
  | Except.error _ => Except.error c

/-- wasm.rs: WasmSandbox::generate_demo_wasm_module, the literal byte vector. -/
def generate_demo_wasm_module : List Nat :=
  [0x00, 0x61, 0x73, 0x6d,
   0x01, 0x00, 0x00, 0x00,
   0x01, 0x07, 0x01, 0x60, 0x02, 0x7f, 0x7f, 0x01, 0x7f,
   0x03, 0x02, 0x01, 0x00,
   0x07, 0x0b, 0x01, 0x07, 0x65, 0x78, 0x65, 0x63, 0x75, 0x74, 0x65, 0x00, 0x00,
   0x0a, 0x09, 0x01, 0x07, 0x00, 0x20, 0x00, 0x20, 0x01, 0x6a, 0x0b]

/-- wasm.rs: WasmSandbox::load_agent_wasm. The registry download is a TODO in
the source; the body unconditionally returns the demo module bytes, so in the
source this operation never fails. -/
def load_agent_wasm (image : String) : Except String (List Nat) :=
  Except.ok generate_demo_wasm_module

/-- wasm.rs: WasmSandbox::allocate_string. The source body is a mock that
always returns pointer 1000. -/
def allocate_string (s : String) : Except String Int :=
  Except.ok 1000

/-- wasm.rs: WasmSandbox::read_string. The source body is a mock that always
returns a fixed output JSON text. -/
def read_string (ptr : Int) : Except String String :=
  Except.ok "\x7b\"result\": \"Agent execution completed\", \"llm_calls\": 1\x7d"

/-- wasm.rs: WasmSandbox::get_memory_usage. The source body is a mock that
always reports 1 MB. -/
def get_memory_usage : Except String Nat :=
  Except.ok (1024 * 1024)

/-- Outcomes of the external library calls made by execute_agent: wasmtime
module compilation, instantiation, export lookup, the guest call itself, and
serde_json text encoding and decoding. The elapsed wall-clock milliseconds
measured around the call are also supplied here. -/
structure WasmEnv where
  compile : List Nat → Except String Unit
  instantiate : Except String Unit
  getExecuteFunc : Except String Unit
  serializeInput : Json → Except String String
  callExecute : Int → Int → Except String Int
  parseOutput : String → Except String AgentOutput
  elapsedMs : Nat

/-- wasm.rs: WasmSandbox::execute_agent, lines 31 to 111. Each Rust
question-mark operator is a monadic bind in Except; each .context call is
modelled by withContext. The store and limiter setup of lines 35 to 39 has no
effect on the returned value. allocate_string always yields pointer 1000 and
output_ptr is the literal 0, so the guest entry is invoked at (1000, 0). Only
a failure of the guest call itself is converted into an AgentResult with
success false; every other failure propagates as Except.error. -/
def execute_agent (env : WasmEnv) (request : AgentRequest) :
    Except String AgentResult := do
  let wasm_bytes ← load_agent_wasm request.image
  let _ ← withContext (env.compile wasm_bytes) "Failed to compile WASM module"
  let _ ← withContext env.instantiate "Failed to instantiate WASM module"
  let _ ← withContext env.getExecuteFunc
    "Failed to get execute function from WASM module"
  let input_json ← withContext (env.serializeInput request.input)
    "Failed to serialize agent input"
  let input_ptr ← allocate_string input_json
  let output_ptr : Int := 0
  match env.callExecute input_ptr output_ptr with
  | Except.ok result_ptr => do
      let output_json ← read_string result_ptr
      let agent_output ← withContext (env.parseOutput output_json)
        "Failed to deserialize agent output"
      let mem ← get_memory_usage
      Except.ok
        { success := true
          output := some agent_output
          error := none
          metrics :=
            { execution_time_ms := env.elapsedMs
              memory_usage := mem
              cpu_time := env.elapsedMs
              llm_calls := agent_output.llm_calls.getD 0 } }
  | Except.error e =>
      Except.ok
        { success := false
          output := none
          error := some e
          metrics :=
            { execution_time_ms := env.elapsedMs
              memory_usage := 0
              cpu_time := env.elapsedMs
              llm_calls := 0 } }

/-- The executions map of lib.rs: HashMap from execution id to
AgentExecution, modelled extensionally. -/
abbrev Registry := String → Option AgentExecution

/-- The empty executions map. -/
def Registry.emptyR : Registry := fun _ => none

/-- HashMap::insert: replace-or-add at a key. -/
def Registry.insert (m : Registry) (k : String) (v : AgentExecution) :
    Registry :=
  fun q => if q = k then some v else m q

/-- lib.rs lines 107 to 115: the terminal registry update of
handle_agent_request. get_mut on the id; if the record is present it is moved
to Completed (on Ok) or Failed (on Err); if the id is absent nothing happens
and nothing is reported. -/
def updateExecutionResult (m : Registry) (k : String)
    (result : Except String AgentResult) (now : Nat) : Registry :=
  match m k with
  | none => m
  | some exec =>
      m.insert k
        (match result with
         | Except.ok r => exec.complete_success r now
         | Except.error e => exec.complete_error e now)

/-- Internal registry-error signal described by the specification section 4.2;
no corresponding type exists anywhere in the source. -/
inductive RegistryError where
  | notFound
deriving DecidableEq

/-- Modelled from the spec: section 4.2 requires that update on an unknown id
is reported to the caller as RegistryError::NotFound rather than silently
skipped. This definition follows the words of the spec and exists only to be
compared with updateExecutionResult, which is the behavior found in the
source. -/
def updateExecutionResultSpec (m : Registry) (k : String)
    (result : Except String AgentResult) (now : Nat) :
    Except RegistryError Registry :=
  match m k with
  | none => Except.error RegistryError.notFound
  | some exec =>
      Except.ok
        (m.insert k
          (match result with
           | Except.ok r => exec.complete_success r now
           | Except.error e => exec.complete_error e now))

/-- An inbound NATS message as seen by handle_agent_request: the outcome of
serde_json::from_slice on its payload, and the optional reply subject of the
envelope. -/
structure Message where
  parsed : Except String AgentRequest
  reply : Option String

/-- Host nondeterminism consumed by one handle_agent_request call: the fresh
uuid, the clock reading taken by AgentExecution::new, the external outcomes
of the sandbox call, and the clock reading taken by complete_success or
complete_error. -/
structure HandleEnv where
  freshId : String
  createdAt : Nat
  wasmEnv : WasmEnv
  completedAt : Nat

/-- lib.rs: AgentflowRuntime::handle_agent_request, lines 86 to 141. Parse the
payload (parse failure returns early with Err, before any registry access);
create a Pending record and insert it; run the sandbox; apply the terminal
update; build the reply projection when a reply subject is present and the
record is found. Serialization of the reply and the NATS send cannot affect
the registry and the send error is only logged, so the reply is modelled as
the projected AgentResponse value. -/
def handle_agent_request (env : HandleEnv) (message : Message) (reg : Registry) :
    Except String (Registry × Option AgentResponse) := do
  let request ← withContext message.parsed "Failed to deserialize agent request"
  let execution := AgentExecution.new request env.freshId env.createdAt
  let execution_id := execution.id
  let reg1 := reg.insert execution_id execution
  let result := execute_agent env.wasmEnv request
  let reg2 := updateExecutionResult reg1 execution_id result env.completedAt
  let response :=
    match message.reply with
    | none => none
    | some _ =>
        (reg2 execution_id).map fun exec =>
          { execution_id := exec.id
            agent_id := exec.request.agent_id
            status := exec.status
            result := exec.result
            error := exec.error
            started_at := exec.started_at
            completed_at := exec.completed_at }
  Except.ok (reg2, response)

/-- lib.rs lines 70 to 79: the subscriber loop catches an Err from
handle_agent_request, logs it and moves on; the registry is then unchanged
and no reply is produced for that message. -/
def processMessage (env : HandleEnv) (message : Message) (reg : Registry) :
    Registry × Option AgentResponse :=
  match handle_agent_request env message reg with
  | Except.error _ => (reg, none)
  | Except.ok out => out

/-- The subscriber loop over a finite list of inbound messages, each paired
with the host nondeterminism consumed while handling it. Returns the final
registry and the replies actually published. -/
def processMessages : List (HandleEnv × Message) → Registry →
    Registry × List AgentResponse
  | [], reg => (reg, [])
  | (env, msg) :: rest, reg =>
      let step := processMessage env msg reg
      let restOut := processMessages rest step.1
      (restOut.1,
       match step.2 with
       | some r => r :: restOut.2
       | none => restOut.2)

/-- Field lookup in a serialized JSON object, by name, first match wins:
the access pattern of the derived serde deserializers. -/
def getField : List (String × Json) → String → Option Json
  | [], _ => none
  | (k, v) :: rest, name => if k = name then some v else getField rest name

/-- Required string field. -/
def getStr (fs : List (String × Json)) (name : String) : Except String String :=
  match getField fs name with
  | some (Json.str s) => Except.ok s
  | _ => Except.error name

/-- Required bool field. -/
def getBool (fs : List (String × Json)) (name : String) : Except String Bool :=
  match getField fs name with
  | some (Json.bool b) => Except.ok b
  | _ => Except.error name

/-- Required unsigned integer field: a negative number is rejected. -/
def getNat (fs : List (String × Json)) (name : String) : Except String Nat :=
  match getField fs name with
  | some (Json.num (Int.ofNat n)) => Except.ok n
  | _ => Except.error name

/-- Optional unsigned integer field: serde maps a missing field or null of an
Option type to None; a negative number is rejected. -/
def getOptNat (fs : List (String × Json)) (name : String) :
    Except String (Option Nat) :=
  match getField fs name with
  | none => Except.ok none
  | some Json.null => Except.ok none
  | some (Json.num (Int.ofNat n)) => Except.ok (some n)
  | some _ => Except.error name

/-- Optional string field. -/
def getOptStr (fs : List (String × Json)) (name : String) :
    Except String (Option String) :=
  match getField fs name with
  | none => Except.ok none
  | some Json.null => Except.ok none
  | some (Json.str s) => Except.ok (some s)
  | some _ => Except.error name

/-- Required field holding an arbitrary serde_json::Value. -/
def getJson (fs : List (String × Json)) (name : String) : Except String Json :=
  match getField fs name with
  | some v => Except.ok v
  | none => Except.error name

/-- Encoding of an Option u64 or u32 field. -/
def jsonOfOptNat : Option Nat → Json
  | none => Json.null
  | some n => Json.num (Int.ofNat n)

/-- Encoding of an Option String field. -/
def jsonOfOptStr : Option String → Json
  | none => Json.null
  | some s => Json.str s

/-- Encoding of the environment map field. -/
def jsonOfOptEnv : Option (List (String × String)) → Json
  | none => Json.null
  | some l => Json.obj (l.map fun p => (p.1, Json.str p.2))

/-- Decoding of the entries of the environment map: every value must be a
string. -/
def decodeEnvEntries : List (String × Json) →
    Except String (List (String × String))
  | [] => Except.ok []
  | (k, Json.str v) :: rest => do
      let r ← decodeEnvEntries rest
      Except.ok ((k, v) :: r)
  | _ => Except.error "environment"

/-- Optional environment map field. -/
def getOptEnv (fs : List (String × Json)) (name : String) :
    Except String (Option (List (String × String))) :=
  match getField fs name with
  | none => Except.ok none
  | some Json.null => Except.ok none
  | some (Json.obj l) => do
      let entries ← decodeEnvEntries l
      Except.ok (some entries)
  | some _ => Except.error name

/-- Encoding of an Option of a list of strings. -/
def jsonOfOptStrList : Option (List String) → Json
  | none => Json.null
  | some l => Json.arr (l.map Json.str)

/-- Decoding of a JSON array of strings. -/
def decodeStrList : List Json → Except String (List String)
  | [] => Except.ok []
  | Json.str s :: rest => do
      let r ← decodeStrList rest
      Except.ok (s :: r)
  | _ => Except.error "artifacts"

/-- Optional list-of-strings field. -/
def getOptStrList (fs : List (String × Json)) (name : String) :
    Except String (Option (List String)) :=
  match getField fs name with
  | none => Except.ok none
  | some Json.null => Except.ok none
  | some (Json.arr xs) => do
      let l ← decodeStrList xs
      Except.ok (some l)
  | some _ => Except.error name

/-- Derived serde serializer of AgentConfig. -/
def serializeConfig (c : AgentConfig) : Json :=
  Json.obj
    [("llm_provider", Json.str c.llm_provider),
     ("llm_model", Json.str c.llm_model),
     ("timeout_seconds", jsonOfOptNat c.timeout_seconds),
     ("max_retries", jsonOfOptNat c.max_retries),
     ("environment", jsonOfOptEnv c.environment)]

/-- Derived serde deserializer of AgentConfig. -/
def deserializeConfig : Json → Except String AgentConfig
  | Json.obj fs => do
      let llm_provider ← getStr fs "llm_provider"
      let llm_model ← getStr fs "llm_model"
      let timeout_seconds ← getOptNat fs "timeout_seconds"
      let max_retries ← getOptNat fs "max_retries"
      let environment ← getOptEnv fs "environment"
      Except.ok
        { llm_provider := llm_provider
          llm_model := llm_model
          timeout_seconds := timeout_seconds
          max_retries := max_retries
          environment := environment }
  | _ => Except.error "AgentConfig"

/-- Derived serde serializer of AgentRequest. -/
def serializeRequest (r : AgentRequest) : Json :=
  Json.obj
    [("agent_id", Json.str r.agent_id),
     ("workflow_id", Json.str r.workflow_id),
     ("image", Json.str r.image),
     ("input", r.input),
     ("config", serializeConfig r.config)]

/-- Derived serde deserializer of AgentRequest. -/
def deserializeRequest : Json → Except String AgentRequest
  | Json.obj fs => do
      let agent_id ← getStr fs "agent_id"
      let workflow_id ← getStr fs "workflow_id"
      let image ← getStr fs "image"
      let input ← getJson fs "input"
      let cfgJson ← getJson fs "config"
      let config ← deserializeConfig cfgJson
      Except.ok
        { agent_id := agent_id
          workflow_id := workflow_id
          image := image
          input := input
          config := config }
  | _ => Except.error "AgentRequest"

/-- Derived serde serializer of ExecutionStatus: a unit enum variant is
encoded as its name string. -/
def serializeStatus : ExecutionStatus → Json
  | ExecutionStatus.Pending => Json.str "Pending"
  | ExecutionStatus.Running => Json.str "Running"
  | ExecutionStatus.Completed => Json.str "Completed"
  | ExecutionStatus.Failed => Json.str "Failed"
  | ExecutionStatus.Cancelled => Json.str "Cancelled"

/-- Derived serde deserializer of ExecutionStatus. -/
def deserializeStatus : Json → Except String ExecutionStatus
  | Json.str "Pending" => Except.ok ExecutionStatus.Pending
  | Json.str "Running" => Except.ok ExecutionStatus.Running
  | Json.str "Completed" => Except.ok ExecutionStatus.Completed
  | Json.str "Failed" => Except.ok ExecutionStatus.Failed
  | Json.str "Cancelled" => Except.ok ExecutionStatus.Cancelled
  | _ => Except.error "ExecutionStatus"

/-- Derived serde serializer of ExecutionMetrics. -/
def serializeMetrics (m : ExecutionMetrics) : Json :=
  Json.obj
    [("memory_usage", Json.num (Int.ofNat m.memory_usage)),
     ("cpu_time", Json.num (Int.ofNat m.cpu_time)),
     ("llm_calls", Json.num (Int.ofNat m.llm_calls)),
     ("execution_time_ms", Json.num (Int.ofNat m.execution_time_ms))]

/-- Derived serde deserializer of ExecutionMetrics. -/
def deserializeMetrics : Json → Except String ExecutionMetrics
  | Json.obj fs => do
      let memory_usage ← getNat fs "memory_usage"
      let cpu_time ← getNat fs "cpu_time"
      let llm_calls ← getNat fs "llm_calls"
      let execution_time_ms ← getNat fs "execution_time_ms"
      Except.ok
        { memory_usage := memory_usage
          cpu_time := cpu_time
          llm_calls := llm_calls
          execution_time_ms := execution_time_ms }
  | _ => Except.error "ExecutionMetrics"

/-- Derived serde serializer of AgentOutput. -/
def serializeOutput (o : AgentOutput) : Json :=
  Json.obj
    [("result", Json.str o.result),
     ("llm_calls", jsonOfOptNat o.llm_calls),
     ("artifacts", jsonOfOptStrList o.artifacts)]

/-- Derived serde deserializer of AgentOutput. -/
def deserializeOutput : Json → Except String AgentOutput
  | Json.obj fs => do
      let result ← getStr fs "result"
      let llm_calls ← getOptNat fs "llm_calls"
      let artifacts ← getOptStrList fs "artifacts"
      Except.ok
        { result := result
          llm_calls := llm_calls
          artifacts := artifacts }
  | _ => Except.error "AgentOutput"

/-- Derived serde serializer of AgentResult. -/
def serializeResult (r : AgentResult) : Json :=
  Json.obj
    [("success", Json.bool r.success),
     ("output",
       match r.output with
       | none => Json.null
       | some o => serializeOutput o),
     ("error", jsonOfOptStr r.error),
     ("metrics", serializeMetrics r.metrics)]

/-- Optional AgentOutput field. -/
def getOptOutput (fs : List (String × Json)) (name : String) :
    Except String (Option AgentOutput) :=
  match getField fs name with
  | none => Except.ok none
  | some Json.null => Except.ok none
  | some j => do
      let o ← deserializeOutput j
      Except.ok (some o)

/-- Derived serde deserializer of AgentResult. -/
def deserializeResult : Json → Except String AgentResult
  | Json.obj fs => do
      let success ← getBool fs "success"
      let output ← getOptOutput fs "output"
      let error ← getOptStr fs "error"
      let metricsJson ← getJson fs "metrics"
      let metrics ← deserializeMetrics metricsJson
      Except.ok
        { success := success
          output := output
          error := error
          metrics := metrics }
  | _ => Except.error "AgentResult"

/-- Optional AgentResult field. -/
def getOptResult (fs : List (String × Json)) (name : String) :
    Except String (Option AgentResult) :=
  match getField fs name with
  | none => Except.ok none
  | some Json.null => Except.ok none
  | some j => do
      let r ← deserializeResult j
      Except.ok (some r)

/-- Derived serde serializer of AgentResponse. -/
def serializeResponse (r : AgentResponse) : Json :=
  Json.obj
    [("execution_id", Json.str r.execution_id),
     ("agent_id", Json.str r.agent_id),
     ("status", serializeStatus r.status),
     ("result",
       match r.result with
       | none => Json.null
       | some v => serializeResult v),
     ("error", jsonOfOptStr r.error),
     ("started_at", Json.num (Int.ofNat r.started_at)),
     ("completed_at", jsonOfOptNat r.completed_at)]

/-- Derived serde deserializer of AgentResponse. -/
def deserializeResponse : Json → Except String AgentResponse
  | Json.obj fs => do
      let execution_id ← getStr fs "execution_id"
      let agent_id ← getStr fs "agent_id"
      let statusJson ← getJson fs "status"
      let status ← deserializeStatus statusJson
      let result ← getOptResult fs "result"
      let error ← getOptStr fs "error"
      let started_at ← getNat fs "started_at"
      let completed_at ← getOptNat fs "completed_at"
      Except.ok
        { execution_id := execution_id
          agent_id := agent_id
          status := status
          result := result
          error := error
          started_at := started_at
          completed_at := completed_at }
  | _ => Except.error "AgentResponse"

/-- Decoding inverts the encoding of the environment map entries. -/
lemma decodeEnvEntries_map (l : List (String × String)) :
    decodeEnvEntries (l.map fun p => (p.1, Json.str p.2)) = Except.ok l := by
  induction l with
  | nil => rfl
  | cons a rest ih =>
      cases a
      simp [decodeEnvEntries, ih, Except.bind, Bind.bind]

/-- Decoding inverts the encoding of a string list. -/
lemma decodeStrList_map (l : List String) :
    decodeStrList (l.map Json.str) = Except.ok l := by
  induction l with
  | nil => rfl
  | cons a rest ih => simp [decodeStrList, ih, Except.bind, Bind.bind]

/-- Round trip for AgentConfig. -/
lemma roundtripConfig (c : AgentConfig) :
    deserializeConfig (serializeConfig c) = Except.ok c := by
  rcases c with ⟨p, m, t, r, env⟩
  rcases t with _ | tv <;> rcases r with _ | rv <;> rcases env with _ | el <;>
    simp [serializeConfig, deserializeConfig, getStr, getOptNat, getOptEnv,
      getField, jsonOfOptNat, jsonOfOptEnv, decodeEnvEntries_map,
      Except.bind, Bind.bind]

/-- Round trip for AgentRequest. -/
lemma roundtripRequest (r : AgentRequest) :
    deserializeRequest (serializeRequest r) = Except.ok r := by
  rcases r with ⟨a, w, i, inp, c⟩
  simp [serializeRequest, deserializeRequest, getStr, getJson, getField,
    roundtripConfig, Except.bind, Bind.bind]

/-- Round trip for ExecutionStatus. -/
lemma roundtripStatus (s : ExecutionStatus) :
    deserializeStatus (serializeStatus s) = Except.ok s := by
  cases s <;> rfl

/-- Round trip for ExecutionMetrics. -/
lemma roundtripMetrics (m : ExecutionMetrics) :
    deserializeMetrics (serializeMetrics m) = Except.ok m := by
  rcases m with ⟨a, b, c, d⟩
  simp [serializeMetrics, deserializeMetrics, getNat, getField,
    Except.bind, Bind.bind]

/-- Round trip for AgentOutput. -/
lemma roundtripOutput (o : AgentOutput) :
    deserializeOutput (serializeOutput o) = Except.ok o := by
  rcases o with ⟨r, lc, ar⟩
  rcases lc with _ | lcv <;> rcases ar with _ | arl <;>
    simp [serializeOutput, deserializeOutput, getStr, getOptNat,
      getOptStrList, getField, jsonOfOptNat, jsonOfOptStrList,
      decodeStrList_map, Except.bind, Bind.bind]

/-- Round trip for AgentResult. -/
lemma roundtripResult (r : AgentResult) :
    deserializeResult (serializeResult r) = Except.ok r := by
  rcases r with ⟨s, o, e, m⟩
  rcases m with ⟨m1, m2, m3, m4⟩
  rcases o with _ | ⟨ores, olc, oar⟩
  · rcases e with _ | ev <;>
      simp [serializeResult, deserializeResult, serializeOutput,
        deserializeOutput, serializeMetrics, deserializeMetrics, getBool,
        getOptOutput, getStr, getNat, getOptNat, getOptStr, getOptStrList,
        getJson, getField, jsonOfOptStr, jsonOfOptNat, jsonOfOptStrList,
        decodeStrList_map, Except.bind, Bind.bind]
  · rcases e with _ | ev <;> rcases olc with _ | l1 <;> rcases oar with _ | l2 <;>
      simp [serializeResult, deserializeResult, serializeOutput,
        deserializeOutput, serializeMetrics, deserializeMetrics, getBool,
        getOptOutput, getStr, getNat, getOptNat, getOptStr, getOptStrList,
        getJson, getField, jsonOfOptStr, jsonOfOptNat, jsonOfOptStrList,
        decodeStrList_map, Except.bind, Bind.bind]

/-- Round trip for AgentResponse. -/
lemma roundtripResponse (r : AgentResponse) :
    deserializeResponse (serializeResponse r) = Except.ok r := by
  rcases r with ⟨ei, ai, st, res, er, sa, ca⟩
  rcases res with _ | ⟨rs, ro, re, rm⟩
  · rcases er with _ | e1 <;> rcases ca with _ | c1 <;>
      simp [serializeResponse, deserializeResponse, getStr, getJson,
        getOptResult, getOptStr, getNat, getOptNat, getField, jsonOfOptStr,
        jsonOfOptNat, roundtripStatus, Except.bind, Bind.bind]
  · rcases rm with ⟨m1, m2, m3, m4⟩
    rcases ro with _ | ⟨ores, olc, oar⟩
    · rcases er with _ | e1 <;> rcases ca with _ | c1 <;> rcases re with _ | e2 <;>
        simp [serializeResponse, deserializeResponse, serializeResult,
          deserializeResult, serializeOutput, deserializeOutput,
          serializeMetrics, deserializeMetrics, getBool, getOptResult,
          getOptOutput, getStr, getNat, getOptNat, getOptStr, getOptStrList,
          getJson, getField, jsonOfOptStr, jsonOfOptNat, jsonOfOptStrList,
          decodeStrList_map, roundtripStatus, Except.bind, Bind.bind]
    · rcases er with _ | e1 <;> rcases ca with _ | c1 <;> rcases re with _ | e2 <;>
        rcases olc with _ | l1 <;> rcases oar with _ | l2 <;>
        simp [serializeResponse, deserializeResponse, serializeResult,
          deserializeResult, serializeOutput, deserializeOutput,
          serializeMetrics, deserializeMetrics, getBool, getOptResult,
          getOptOutput, getStr, getNat, getOptNat, getOptStr, getOptStrList,
          getJson, getField, jsonOfOptStr, jsonOfOptNat, jsonOfOptStrList,
          decodeStrList_map, roundtripStatus, Except.bind, Bind.bind]

/-- One mutating call on an AgentExecution record, with the clock reading the
Rust method takes internally made explicit. -/
inductive RecordOp where
  | start (now : Nat)
  | complete_success (result : AgentResult) (now : Nat)
  | complete_error (error : String) (now : Nat)
  | cancel

/-- Application of one record operation, dispatching to the agent.rs
methods. -/
def RecordOp.apply (e : AgentExecution) : RecordOp → AgentExecution
  | RecordOp.start now => e.start now
  | RecordOp.complete_success r now => e.complete_success r now
  | RecordOp.complete_error err now => e.complete_error err now
  | RecordOp.cancel => e.cancel

/-- Application of a sequence of record operations, oldest first. -/
def applyOps (e : AgentExecution) : List RecordOp → AgentExecution
  | [] => e
  | op :: rest => applyOps (RecordOp.apply e op) rest

/-- Whether an operation is one of the two terminal calls. -/
def RecordOp.isTerminal : RecordOp → Bool
  | RecordOp.complete_success _ _ => true
  | RecordOp.complete_error _ _ => true
  | _ => false

/-- Whether an operation is the start call. -/
def RecordOp.isStart : RecordOp → Bool
  | RecordOp.start _ => true
  | _ => false

/-- Number of terminal calls in a sequence. -/
def terminalCount : List RecordOp → Nat
  | [] => 0
  | op :: rest => (if op.isTerminal then 1 else 0) + terminalCount rest

/-- A sequence with no terminal calls contains no terminal operation. -/
lemma terminalCount_eq_zero (ops : List RecordOp) (h : terminalCount ops = 0) :
    ∀ o ∈ ops, o.isTerminal = false := by
  induction ops with
  | nil => intro o ho; cases ho
  | cons op rest ih =>
      intro o ho
      rw [terminalCount] at h
      rcases List.mem_cons.mp ho with rfl | hmem
      · cases hb : o.isTerminal
        · rfl
        · rw [hb] at h; simp at h
      · refine ih ?_ o hmem
        cases hb : op.isTerminal
        · rw [hb] at h; simpa using h
        · rw [hb] at h; simp at h

/-- No start call occurs anywhere after a terminal call. -/
def noStartAfterTerminal : List RecordOp → Bool
  | [] => true
  | op :: rest =>
      if op.isTerminal then
        rest.all (fun o => !o.isStart) && noStartAfterTerminal rest
      else
        noStartAfterTerminal rest

/-- The field-presence discipline of the specification: result present iff
Completed, error present iff Failed. -/
def fieldInv (e : AgentExecution) : Prop :=
  (e.result.isSome = true ↔ e.status = ExecutionStatus.Completed) ∧
    (e.error.isSome = true ↔ e.status = ExecutionStatus.Failed)

/-- Decidability of the field-presence discipline. -/
instance decidableFieldInv (e : AgentExecution) : Decidable (fieldInv e) :=
  inferInstanceAs
    (Decidable
      ((e.result.isSome = true ↔ e.status = ExecutionStatus.Completed) ∧
        (e.error.isSome = true ↔ e.status = ExecutionStatus.Failed)))

/-- Pre-terminal shape: no result, no error, status Pending or Running. -/
def preTerminal (e : AgentExecution) : Prop :=
  e.result = none ∧ e.error = none ∧
    (e.status = ExecutionStatus.Pending ∨ e.status = ExecutionStatus.Running)

/-- A sequence of operations that are neither terminal nor start consists of
cancel calls only and leaves the record untouched. -/
lemma applyOps_all_cancel (ops : List RecordOp) (e : AgentExecution)
    (h : ∀ o ∈ ops, o.isTerminal = false ∧ o.isStart = false) :
    applyOps e ops = e := by
  induction ops generalizing e with
  | nil => rfl
  | cons op rest ih =>
      have hop := h op (List.mem_cons_self op rest)
      have hrest : ∀ o ∈ rest, o.isTerminal = false ∧ o.isStart = false :=
        fun o ho => h o (List.mem_cons_of_mem op ho)
      cases op with
      | start now => simp [RecordOp.isStart] at hop
      | complete_success r now => simp [RecordOp.isTerminal] at hop
      | complete_error err now => simp [RecordOp.isTerminal] at hop
      | cancel =>
          simp only [applyOps, RecordOp.apply, AgentExecution.cancel]
          exact ih e hrest

/-- Any pre-terminal record satisfies the field-presence discipline. -/
lemma preTerminal_fieldInv (e : AgentExecution) (h : preTerminal e) :
    fieldInv e := by
  obtain ⟨hr, he, hs⟩ := h
  constructor
  · constructor
    · intro hsome
      rw [hr] at hsome
      simp at hsome
    · intro hc
      rcases hs with hs | hs <;> rw [hs] at hc <;> exact absurd hc (by simp)
  · constructor
    · intro hsome
      rw [he] at hsome
      simp at hsome
    · intro hc
      rcases hs with hs | hs <;> rw [hs] at hc <;> exact absurd hc (by simp)

/-- Core invariance argument: starting from a pre-terminal record, a sequence
with at most one terminal call and no start after the terminal call leaves the
record satisfying the field-presence discipline. -/
lemma applyOps_fieldInv (ops : List RecordOp) (e : AgentExecution)
    (hpre : preTerminal e) (hcount : terminalCount ops ≤ 1)
    (hns : noStartAfterTerminal ops = true) :
    fieldInv (applyOps e ops) := by
  induction ops generalizing e with
  | nil => exact preTerminal_fieldInv e hpre
  | cons op rest ih =>
      cases op with
      | start now =>
          have hcount' : terminalCount rest ≤ 1 := by
            simpa [terminalCount, RecordOp.isTerminal] using hcount
          have hns' : noStartAfterTerminal rest = true := by
            simpa [noStartAfterTerminal, RecordOp.isTerminal] using hns
          refine ih (e.start now) ?_ hcount' hns'
          obtain ⟨hr, he, _⟩ := hpre
          exact ⟨hr, he, Or.inr rfl⟩
      | cancel =>
          have hcount' : terminalCount rest ≤ 1 := by
            simpa [terminalCount, RecordOp.isTerminal] using hcount
          have hns' : noStartAfterTerminal rest = true := by
            simpa [noStartAfterTerminal, RecordOp.isTerminal] using hns
          exact ih e hpre hcount' hns'
      | complete_success r now =>
          have hzero : terminalCount rest = 0 := by
            rw [terminalCount] at hcount
            simp [RecordOp.isTerminal] at hcount
            omega
          have hnostart : ∀ o ∈ rest, o.isStart = false := by
            intro o ho
            have := hns
            simp [noStartAfterTerminal, RecordOp.isTerminal, List.all_eq_true]
              at this
            have hh := this.1 o ho
            simpa using hh
          have hnoterm : ∀ o ∈ rest, o.isTerminal = false :=
            terminalCount_eq_zero rest hzero
          have heq : applyOps (e.complete_success r now) rest =
              e.complete_success r now :=
            applyOps_all_cancel rest _ (fun o ho => ⟨hnoterm o ho, hnostart o ho⟩)
          simp only [applyOps, RecordOp.apply]
          rw [heq]
          obtain ⟨hr, he, _⟩ := hpre
          constructor
          · simp [AgentExecution.complete_success]
          · simp [AgentExecution.complete_success, he]
      | complete_error err now =>
          have hzero : terminalCount rest = 0 := by
            rw [terminalCount] at hcount
            simp [RecordOp.isTerminal] at hcount
            omega
          have hnostart : ∀ o ∈ rest, o.isStart = false := by
            intro o ho
            have := hns
            simp [noStartAfterTerminal, RecordOp.isTerminal, List.all_eq_true]
              at this
            have hh := this.1 o ho
            simpa using hh
          have hnoterm : ∀ o ∈ rest, o.isTerminal = false :=
            terminalCount_eq_zero rest hzero
          have heq : applyOps (e.complete_error err now) rest =
              e.complete_error err now :=
            applyOps_all_cancel rest _ (fun o ho => ⟨hnoterm o ho, hnostart o ho⟩)
          simp only [applyOps, RecordOp.apply]
          rw [heq]
          obtain ⟨hr, he, _⟩ := hpre
          constructor
          · simp [AgentExecution.complete_error, hr]
          · simp [AgentExecution.complete_error]

/-- No record operation ever assigns the Cancelled status. -/
lemma applyOps_status_ne_cancelled (ops : List RecordOp) (e : AgentExecution)
    (h : e.status ≠ ExecutionStatus.Cancelled) :
    (applyOps e ops).status ≠ ExecutionStatus.Cancelled := by
  induction ops generalizing e with
  | nil => exact h
  | cons op rest ih =>
      cases op with
      | start now =>
          exact ih (e.start now) (by simp [AgentExecution.start])
      | complete_success r now =>
          exact ih (e.complete_success r now)
            (by simp [AgentExecution.complete_success])
      | complete_error err now =>
          exact ih (e.complete_error err now)
            (by simp [AgentExecution.complete_error])
      | cancel => exact ih e h

/-- Wrap-around subtraction on in-range operands with no underflow is plain
subtraction. -/
lemma wrapSub_eq (a b : Nat) (hle : b ≤ a) (hlt : a < U64MOD) :
    wrapSub a b = a - b := by
  unfold wrapSub
  rw [Int.emod_eq_of_lt]
  · exact Int.toNat_sub a b
  · omega
  · have : (a : Int) - b ≤ (a : Int) := by omega
    have ha : (a : Int) < (U64MOD : Int) := by exact_mod_cast hlt
    omega

/-- Helper for claim C6, shared by both conjuncts of its theorem: a message
whose payload fails to deserialize is dropped with the registry unchanged and
no reply. -/
lemma processMessage_malformed (env : HandleEnv) (message : Message)
    (reg : Registry) (e : String) (h : message.parsed = Except.error e) :
    processMessage env message reg = (reg, none) := by
  simp [processMessage, handle_agent_request, withContext, h,
    Except.bind, Bind.bind]

/-- Concrete request configuration used by the example scenarios. -/
def demoConfig : AgentConfig :=
  { llm_provider := "openai"
    llm_model := "gpt-4"
    timeout_seconds := some 5
    max_retries := none
    environment := none }

/-- Concrete request used by the example scenarios. -/
def demoRequest : AgentRequest :=
  { agent_id := "a1"
    workflow_id := "w1"
    image := "demo:v1"
    input := Json.null
    config := demoConfig }

/-- Concrete guest output value. -/
def demoOutput : AgentOutput :=
  { result := "Agent execution completed"
    llm_calls := some 1
    artifacts := none }

/-- The AgentResult produced by execute_agent under okWasmEnv. -/
def demoResult : AgentResult :=
  { success := true
    output := some demoOutput
    error := none
    metrics :=
      { memory_usage := 1024 * 1024
        cpu_time := 12
        llm_calls := 1
        execution_time_ms := 12 } }

/-- External outcomes in which every library call succeeds. -/
def okWasmEnv : WasmEnv :=
  { compile := fun _ => Except.ok ()
    instantiate := Except.ok ()
    getExecuteFunc := Except.ok ()
    serializeInput := fun _ => Except.ok "null"
    callExecute := fun _ _ => Except.ok 2000
    parseOutput := fun _ => Except.ok demoOutput
    elapsedMs := 12 }

/-- External outcomes in which wasmtime rejects the module bytes. -/
def badCompileWasmEnv : WasmEnv :=
  { okWasmEnv with compile := fun _ => Except.error "invalid magic" }

/-- External outcomes in which the guest call itself traps. -/
def trapWasmEnv : WasmEnv :=
  { okWasmEnv with
      callExecute := fun _ _ => Except.error "wasm trap: interrupt" }

/-- Concrete host nondeterminism for one coordinator run. -/
def okHandleEnv : HandleEnv :=
  { freshId := "id-0"
    createdAt := 3
    wasmEnv := okWasmEnv
    completedAt := 5 }

/-- A well-formed inbound message carrying demoRequest, without a reply
subject. -/
def okMessage : Message :=
  { parsed := Except.ok demoRequest
    reply := none }

/-- An inbound message whose payload fails to deserialize. -/
def badMessage : Message :=
  { parsed := Except.error "bad payload"
    reply := some "reply.subject" }

/-- Claim C1, counterexample: when wasmtime rejects the bytecode as
uncompilable, execute_agent does not return an AgentResult with success false;
it signals an error to its caller, refuting the claim that malformed bytecode
is reported as data and that execute never signals a host-level error. -/
theorem c1_counterexample :
    execute_agent badCompileWasmEnv demoRequest =
      Except.error "Failed to compile WASM module" := rfl

/-- Claim C1, amended: a failure of the guest call itself is reported as an
AgentResult with success false, the trap message as the error string, and
zero memory and llm metrics (the time metrics carry the elapsed wall time);
a compilation failure instead propagates as an error return to the caller. -/
theorem c1_sandbox_failure_reporting :
    (∀ (env : WasmEnv) (request : AgentRequest) (e : String),
      env.compile generate_demo_wasm_module = Except.error e →
      execute_agent env request =
        Except.error "Failed to compile WASM module") ∧
    (∀ (env : WasmEnv) (request : AgentRequest) (input : String) (e : String),
      env.compile generate_demo_wasm_module = Except.ok () →
      env.instantiate = Except.ok () →
      env.getExecuteFunc = Except.ok () →
      env.serializeInput request.input = Except.ok input →
      env.callExecute 1000 0 = Except.error e →
      execute_agent env request =
        Except.ok
          { success := false
            output := none
            error := some e
            metrics :=
              { memory_usage := 0
                cpu_time := env.elapsedMs
                llm_calls := 0
                execution_time_ms := env.elapsedMs } }) := by
  constructor
  · intro env request e h
    simp [execute_agent, load_agent_wasm, withContext, h,
      Except.bind, Bind.bind]
  · intro env request input e h1 h2 h3 h4 h5
    simp [execute_agent, load_agent_wasm, allocate_string, withContext,
      h1, h2, h3, h4, h5, Except.bind, Bind.bind]

/-- Claim C1, witness: concrete instantiations of both conjuncts. -/
theorem c1_sandbox_failure_reporting_witness :
    badCompileWasmEnv.compile generate_demo_wasm_module =
        Except.error "invalid magic" ∧
    execute_agent badCompileWasmEnv demoRequest =
        Except.error "Failed to compile WASM module" ∧
    trapWasmEnv.callExecute 1000 0 = Except.error "wasm trap: interrupt" ∧
    execute_agent trapWasmEnv demoRequest =
      Except.ok
        { success := false
          output := none
          error := some "wasm trap: interrupt"
          metrics :=
            { memory_usage := 0
              cpu_time := 12
              llm_calls := 0
              execution_time_ms := 12 } } :=
  ⟨rfl,
   c1_sandbox_failure_reporting.1 badCompileWasmEnv demoRequest
     "invalid magic" rfl,
   rfl,
   c1_sandbox_failure_reporting.2 trapWasmEnv demoRequest "null"
     "wasm trap: interrupt" rfl rfl rfl rfl rfl⟩

/-- Claim C2: the configured timeout_seconds of a request has no influence
whatsoever on execute_agent; no code path reads it and no background ticker
exists, so the cooperative deadline of the claim is never enforced. -/
theorem c2_timeout_ignored :
    ∀ (env : WasmEnv) (request : AgentRequest) (t : Option Nat),
      execute_agent env
        { request with config := { request.config with timeout_seconds := t } } =
      execute_agent env request := by
  intro env request t
  rfl

/-- Claim C3: the coordinator inserts the record with status Pending and the
next status the record ever holds is terminal; AgentExecution.start is never
invoked, so no record is in state Running when the sandbox engine runs. -/
theorem c3_record_skips_running :
    (AgentExecution.new demoRequest "id-0" 3).status =
        ExecutionStatus.Pending ∧
    ((processMessage okHandleEnv okMessage Registry.emptyR).1 "id-0").map
        (fun e => e.status) = some ExecutionStatus.Completed :=
  ⟨rfl, rfl⟩

/-- Claim C4, counterexample: a sequence with a single terminal call in which
start is applied after the terminal call yields a Running record whose result
field is present, violating the field-presence discipline. -/
theorem c4_counterexample :
    terminalCount [RecordOp.complete_success demoResult 5, RecordOp.start 6]
        = 1 ∧
    ¬ fieldInv (applyOps (AgentExecution.new demoRequest "id-1" 0)
        [RecordOp.complete_success demoResult 5, RecordOp.start 6]) :=
  ⟨rfl, by decide⟩

/-- Claim C4, amended: for every record reachable by a sequence of record
operations with at most one terminal call in which no start occurs after the
terminal call, result is present iff status is Completed and error is present
iff status is Failed. -/
theorem c4_field_discipline :
    ∀ (request : AgentRequest) (id : String) (t : Nat) (ops : List RecordOp),
      terminalCount ops ≤ 1 → noStartAfterTerminal ops = true →
      fieldInv (applyOps (AgentExecution.new request id t) ops) := by
  intro request id t ops h1 h2
  exact applyOps_fieldInv ops _ ⟨rfl, rfl, Or.inl rfl⟩ h1 h2

/-- Claim C4, witness: a run through start, one terminal call and cancel. -/
theorem c4_field_discipline_witness :
    terminalCount
        [RecordOp.start 1, RecordOp.complete_success demoResult 2,
         RecordOp.cancel] ≤ 1 ∧
    noStartAfterTerminal
        [RecordOp.start 1, RecordOp.complete_success demoResult 2,
         RecordOp.cancel] = true ∧
    fieldInv (applyOps (AgentExecution.new demoRequest "id-2" 1)
        [RecordOp.start 1, RecordOp.complete_success demoResult 2,
         RecordOp.cancel]) :=
  ⟨by decide, by decide,
   c4_field_discipline demoRequest "id-2" 1
     [RecordOp.start 1, RecordOp.complete_success demoResult 2,
      RecordOp.cancel] (by decide) (by decide)⟩

/-- Claim C5, counterexample: the terminal update of the coordinator applied
to an id absent from the registry returns the registry unchanged and reports
nothing, whereas the spec-modelled update reports RegistryError.notFound; the
source operation has no error channel at all. -/
theorem c5_counterexample :
    updateExecutionResult Registry.emptyR "missing" (Except.error "boom") 7 =
        Registry.emptyR ∧
    updateExecutionResultSpec Registry.emptyR "missing" (Except.error "boom") 7
        = Except.error RegistryError.notFound :=
  ⟨rfl, rfl⟩

/-- Claim C5, amended: an update against an unknown id is a silent no-op; the
registry is returned unchanged and no error condition is surfaced to the
caller. -/
theorem c5_update_unknown_silent :
    ∀ (m : Registry) (k : String) (result : Except String AgentResult)
      (now : Nat),
      m k = none → updateExecutionResult m k result now = m := by
  intro m k result now h
  unfold updateExecutionResult
  rw [h]

/-- Claim C5, witness. -/
theorem c5_update_unknown_silent_witness :
    Registry.emptyR "missing" = none ∧
    updateExecutionResult Registry.emptyR "missing" (Except.error "boom") 9 =
      Registry.emptyR :=
  ⟨rfl,
   c5_update_unknown_silent Registry.emptyR "missing" (Except.error "boom")
     9 rfl⟩

/-- Claim C6: a message whose payload fails to deserialize leaves the registry
unchanged and produces no reply, and dropping it has no effect on the
processing of the remaining messages. -/
theorem c6_malformed_dropped :
    (∀ (env : HandleEnv) (message : Message) (reg : Registry) (e : String),
      message.parsed = Except.error e →
      processMessage env message reg = (reg, none)) ∧
    (∀ (env : HandleEnv) (message : Message) (e : String)
       (rest : List (HandleEnv × Message)) (reg : Registry),
      message.parsed = Except.error e →
      processMessages ((env, message) :: rest) reg =
        processMessages rest reg) := by
  constructor
  · exact processMessage_malformed
  · intro env message e rest reg h
    simp [processMessages, processMessage_malformed env message reg e h]

/-- Claim C6, witness: a malformed message followed by a well-formed one. -/
theorem c6_malformed_dropped_witness :
    badMessage.parsed = Except.error "bad payload" ∧
    processMessage okHandleEnv badMessage Registry.emptyR =
        (Registry.emptyR, none) ∧
    processMessages [(okHandleEnv, badMessage), (okHandleEnv, okMessage)]
        Registry.emptyR =
      processMessages [(okHandleEnv, okMessage)] Registry.emptyR :=
  ⟨rfl,
   c6_malformed_dropped.1 okHandleEnv badMessage Registry.emptyR
     "bad payload" rfl,
   c6_malformed_dropped.2 okHandleEnv badMessage "bad payload"
     [(okHandleEnv, okMessage)] Registry.emptyR rfl⟩

/-- Claim C7: serializing then deserializing an AgentRequest or an
AgentResponse reproduces the original value exactly. -/
theorem c7_roundtrip :
    (∀ r : AgentRequest, deserializeRequest (serializeRequest r) =
        Except.ok r) ∧
    (∀ p : AgentResponse, deserializeResponse (serializeResponse p) =
        Except.ok p) :=
  ⟨roundtripRequest, roundtripResponse⟩

/-- Claim C8: if the clock readings taken by one coordinator step are
non-decreasing and every record already in the registry satisfies the
timestamp discipline, then every record in the registry after the step has
completed_at at least started_at whenever both are set. -/
theorem c8_completed_ge_started :
    ∀ (env : HandleEnv) (message : Message) (reg : Registry) (k : String)
      (r : AgentExecution) (c : Nat),
      env.createdAt ≤ env.completedAt →
      (∀ (k0 : String) (r0 : AgentExecution) (c0 : Nat),
        reg k0 = some r0 → r0.completed_at = some c0 → r0.started_at ≤ c0) →
      (processMessage env message reg).1 k = some r →
      r.completed_at = some c → r.started_at ≤ c := by
  intro env message reg k r c h1 h2 hget hc
  cases hp : message.parsed with
  | error e =>
      rw [processMessage_malformed env message reg e hp] at hget
      exact h2 k r c hget hc
  | ok request =>
      simp [processMessage, handle_agent_request, withContext, hp,
        Except.bind, Bind.bind] at hget
      rw [updateExecutionResult] at hget
      simp [Registry.insert, AgentExecution.new] at hget
      by_cases hk : k = env.freshId
      · subst hk
        simp at hget
        cases hres : execute_agent env.wasmEnv request with
        | ok v =>
            rw [hres] at hget
            rw [← hget] at hc
            simp [AgentExecution.complete_success, AgentExecution.new] at hc
            rw [← hget]
            simp [AgentExecution.complete_success, AgentExecution.new]
            omega
        | error e =>
            rw [hres] at hget
            rw [← hget] at hc
            simp [AgentExecution.complete_error, AgentExecution.new] at hc
            rw [← hget]
            simp [AgentExecution.complete_error, AgentExecution.new]
            omega
      · simp [hk] at hget
        exact h2 k r c hget hc

/-- The terminal record produced by the concrete coordinator run. -/
def rec0 : AgentExecution :=
  (AgentExecution.new demoRequest "id-0" 3).complete_success demoResult 5

/-- Claim C8, witness: the concrete run driven by okHandleEnv. -/
theorem c8_completed_ge_started_witness :
    okHandleEnv.createdAt ≤ okHandleEnv.completedAt ∧
    (processMessage okHandleEnv okMessage Registry.emptyR).1 "id-0" =
        some rec0 ∧
    rec0.completed_at = some 5 ∧
    rec0.started_at ≤ 5 :=
  ⟨by decide, rfl, rfl,
   c8_completed_ge_started okHandleEnv okMessage Registry.emptyR "id-0" rec0 5
     (by decide) (fun k0 r0 c0 h _ => nomatch h) rfl rfl⟩

/-- Claim C9: cancel leaves the record unchanged, and no sequence of the
implemented record operations ever produces a record with status Cancelled. -/
theorem c9_cancel_noop :
    (∀ e : AgentExecution, e.cancel = e) ∧
    (∀ (request : AgentRequest) (id : String) (t : Nat)
       (ops : List RecordOp),
      (applyOps (AgentExecution.new request id t) ops).status ≠
        ExecutionStatus.Cancelled) :=
  ⟨fun _ => rfl,
   fun request id t ops =>
     applyOps_status_ne_cancelled ops _ (by simp [AgentExecution.new])⟩

/-- Record exhibiting u64 overflow in the duration computation. -/
def rec10 : AgentExecution :=
  { AgentExecution.new demoRequest "id-10" 0 with
      completed_at := some (2 ^ 62) }

/-- Claim C10, counterexample: for a record satisfying the stated
preconditions (completed_at at least started_at and clock at least
started_at), the value returned by duration_ms is not
(end - started_at) * 1000: the u64 multiplication by 1000 wraps. -/
theorem c10_counterexample :
    rec10.started_at ≤ 2 ^ 62 ∧
    rec10.completed_at = some (2 ^ 62) ∧
    AgentExecution.duration_ms rec10 0 ≠
      some ((2 ^ 62 - rec10.started_at) * 1000) :=
  ⟨by decide, rfl, by decide⟩

/-- Claim C10, amended: duration_ms always returns Some; under the stated
preconditions, with the end point in u64 range, the subtraction does not
underflow and the value is (end - started_at) * 1000 reduced modulo 2 to the
64, which is exactly (end - started_at) * 1000 whenever that product is below
2 to the 64. -/
theorem c10_duration_formula :
    (∀ (e : AgentExecution) (now : Nat),
      (AgentExecution.duration_ms e now).isSome = true) ∧
    (∀ (e : AgentExecution) (now : Nat),
      e.started_at ≤ endTime e now → endTime e now < U64MOD →
      AgentExecution.duration_ms e now =
          some (((endTime e now - e.started_at) * 1000) % U64MOD) ∧
        ((endTime e now - e.started_at) * 1000 < U64MOD →
          AgentExecution.duration_ms e now =
            some ((endTime e now - e.started_at) * 1000))) := by
  constructor
  · intro e now
    cases h : e.completed_at <;> simp [AgentExecution.duration_ms, h]
  · intro e now h1 h2
    cases h : e.completed_at with
    | none =>
        rw [endTime, h] at h1 h2 ⊢
        simp only [Option.getD_none] at h1 h2 ⊢
        constructor
        · simp [AgentExecution.duration_ms, h, wrapMul1000,
            wrapSub_eq now e.started_at h1 h2]
        · intro h3
          simp [AgentExecution.duration_ms, h, wrapMul1000,
            wrapSub_eq now e.started_at h1 h2, Nat.mod_eq_of_lt h3]
    | some c0 =>
        rw [endTime, h] at h1 h2 ⊢
        simp only [Option.getD_some] at h1 h2 ⊢
        constructor
        · simp [AgentExecution.duration_ms, h, wrapMul1000,
            wrapSub_eq c0 e.started_at h1 h2]
        · intro h3
          simp [AgentExecution.duration_ms, h, wrapMul1000,
            wrapSub_eq c0 e.started_at h1 h2, Nat.mod_eq_of_lt h3]

/-- Record with a small in-range duration. -/
def rec11 : AgentExecution :=
  { AgentExecution.new demoRequest "id-11" 3 with completed_at := some 5 }

/-- Claim C10, witness. -/
theorem c10_duration_formula_witness :
    rec11.started_at ≤ endTime rec11 9 ∧
    endTime rec11 9 < U64MOD ∧
    AgentExecution.duration_ms rec11 9 =
      some (((endTime rec11 9 - rec11.started_at) * 1000) % U64MOD) :=
  ⟨by decide, by decide,
   (c10_duration_formula.2 rec11 9 (by decide) (by decide)).1⟩

end Agentflow
